import Mathlib

/-!
Shallow embedding of the casbin MongoDB adapter (Go, package `mongodbadapter`)
and proofs about its rule codec and adapter operations.

The embedding follows the current driver-based implementation
(`adapter.go` built on `go.mongodb.org/mongo-driver`): the `CasbinRule`
document shape, `savePolicyLine` / `loadPolicyLine` (the rule codec),
`SavePolicy`, `LoadPolicy` / `LoadFilteredPolicy` / `IsFiltered`,
`RemovePolicy`, `RemoveFilteredPolicy`, `UpdateFilteredPolicies` with its
transactional and non-transactional paths, and `toStringPolicy`.

The MongoDB collection is modelled as a list of `CasbinRule` documents;
driver behaviour that the adapter relies on (find / delete-many / delete-one /
insert-many semantics, the empty-slice rejection of `InsertMany`, and the
`CommandError` code 20 signalling that transactions are unsupported) is
embedded explicitly where the adapter's control flow depends on it.
-/

namespace MongodbAdapter

/-- The persisted document shape: `CasbinRule` from the Go source, with a
rule-type tag `pType` and six positional string fields `v0`..`v5`. -/
structure CasbinRule where
  pType : String
  v0 : String
  v1 : String
  v2 : String
  v3 : String
  v4 : String
  v5 : String
deriving DecidableEq, Repr

/-- Indexed read access to the six positional fields of a `CasbinRule`
(positions outside `0..5` do not exist in the document and read as `""`). -/
def CasbinRule.fieldAt (c : CasbinRule) : Nat → String
  | 0 => c.v0
  | 1 => c.v1
  | 2 => c.v2
  | 3 => c.v3
  | 4 => c.v4
  | 5 => c.v5
  | _ => ""

/-- The six positional fields of a document as a list, in order. -/
def fieldsList (c : CasbinRule) : List String :=
  [c.v0, c.v1, c.v2, c.v3, c.v4, c.v5]

/-- Embedding of `savePolicyLine(ptype, rule)` from the Go source: builds a
`CasbinRule` with `PType = ptype` and copies `rule[i]` into `Vi` for each
`i` with `len(rule) > i`, for `i = 0..5`; every other field stays `""`. -/
def savePolicyLine (ptype : String) (rule : List String) : CasbinRule where
  pType := ptype
  v0 := if 0 < rule.length then rule.getD 0 "" else ""
  v1 := if 1 < rule.length then rule.getD 1 "" else ""
  v2 := if 2 < rule.length then rule.getD 2 "" else ""
  v3 := if 3 < rule.length then rule.getD 3 "" else ""
  v4 := if 4 < rule.length then rule.getD 4 "" else ""
  v5 := if 5 < rule.length then rule.getD 5 "" else ""

/-- Embedding of `loadPolicyLine(line, model)` from the Go source, at the
level of the token list it hands to the casbin persistence layer: the Go
function forms `p = [PType, V0..V5]` and joins a prefix of `p` into a CSV
text depending on the last non-empty field (checking `V5` down to `V0`);
when all of `V0..V5` are empty the text stays `""` and the casbin layer
ignores the line, which we model as the empty token list. -/
def loadPolicyTokens (line : CasbinRule) : List String :=
  let p := [line.pType, line.v0, line.v1, line.v2, line.v3, line.v4, line.v5]
  if line.v5 ≠ "" then p
  else if line.v4 ≠ "" then p.take 6
  else if line.v3 ≠ "" then p.take 5
  else if line.v2 ≠ "" then p.take 4
  else if line.v1 ≠ "" then p.take 3
  else if line.v0 ≠ "" then p.take 2
  else []

/-- Decoding one persisted document into `(section, ruleType, fields)` as the
casbin persistence layer does with the token list produced by
`loadPolicyLine`: the first token is the rule-type tag, the section is its
first character, and the remaining tokens are the rule's fields. A document
that produces no tokens loads nothing. -/
def decodePolicyLine (line : CasbinRule) : Option (String × String × List String) :=
  match loadPolicyTokens line with
  | [] => none
  | t :: rest => some (t.take 1, t, rest)

/-- Field list obtained by decoding one persisted document (the tokens of
`loadPolicyLine` with the leading rule-type tag dropped). -/
def decodeFields (line : CasbinRule) : List String :=
  (loadPolicyTokens line).drop 1

/-- Modelled from the spec's words, for comparison with the code's decoder:
the spec describes the decoded field list as built "by taking fields
left-to-right and stopping at the first empty field". -/
def specDecodeFields (line : CasbinRule) : List String :=
  (fieldsList line).takeWhile (fun f => f != "")

/-- The contiguous-fields invariant of the spec's data model: fields are
filled left-to-right with no gaps, i.e. each field can only be non-empty if
its predecessor is. -/
def contiguousFields (line : CasbinRule) : Prop :=
  (line.v1 ≠ "" → line.v0 ≠ "") ∧ (line.v2 ≠ "" → line.v1 ≠ "") ∧
  (line.v3 ≠ "" → line.v2 ≠ "") ∧ (line.v4 ≠ "" → line.v3 ≠ "") ∧
  (line.v5 ≠ "" → line.v4 ≠ "")

instance (line : CasbinRule) : Decidable (contiguousFields line) := by
  unfold contiguousFields
  infer_instance

/-- Partial-match selector built by `RemoveFilteredPolicy` and
`UpdateFilteredPolicies`: an exact-match constraint on the rule-type tag
plus an optional exact-match constraint per positional field (`none` means
the position is absent from the selector and unconstrained). -/
structure Selector where
  ptype : String
  sv0 : Option String
  sv1 : Option String
  sv2 : Option String
  sv3 : Option String
  sv4 : Option String
  sv5 : Option String
deriving DecidableEq, Repr

/-- One block of the selector-building code, for document position `j`: the
Go source guards with `fieldIndex <= j && j < fieldIndex+len(fieldValues)`
and then adds `vj = fieldValues[j-fieldIndex]` to the selector only when
that supplied value is non-empty. `fieldIndex` is a Go `int` and may be
negative, so it is embedded as an integer. -/
def selField (fieldIndex : Int) (fieldValues : List String) (j : Nat) : Option String :=
  if fieldIndex ≤ (j : Int) ∧ (j : Int) < fieldIndex + fieldValues.length then
    let fv := fieldValues.getD ((j : Int) - fieldIndex).toNat ""
    if fv = "" then none else some fv
  else none

/-- Embedding of the selector construction shared by `RemoveFilteredPolicy`
and `UpdateFilteredPolicies` in the Go source: `selector["ptype"] = ptype`
followed by the six per-position blocks. -/
def buildSelector (ptype : String) (fieldIndex : Int) (fieldValues : List String) : Selector where
  ptype := ptype
  sv0 := selField fieldIndex fieldValues 0
  sv1 := selField fieldIndex fieldValues 1
  sv2 := selField fieldIndex fieldValues 2
  sv3 := selField fieldIndex fieldValues 3
  sv4 := selField fieldIndex fieldValues 4
  sv5 := selField fieldIndex fieldValues 5

/-- Indexed read access to a selector's per-position constraints. -/
def Selector.vAt (s : Selector) : Nat → Option String
  | 0 => s.sv0
  | 1 => s.sv1
  | 2 => s.sv2
  | 3 => s.sv3
  | 4 => s.sv4
  | 5 => s.sv5
  | _ => none

/-- An optional equality constraint matches a field when absent or equal. -/
def matchesOpt (o : Option String) (s : String) : Bool :=
  match o with
  | none => true
  | some x => x == s

/-- MongoDB equality-selector semantics on one document: every constraint
present in the selector must hold. -/
def matchesSelector (sel : Selector) (c : CasbinRule) : Bool :=
  sel.ptype == c.pType && matchesOpt sel.sv0 c.v0 && matchesOpt sel.sv1 c.v1 &&
    matchesOpt sel.sv2 c.v2 && matchesOpt sel.sv3 c.v3 && matchesOpt sel.sv4 c.v4 &&
    matchesOpt sel.sv5 c.v5

/-- Embedding of `RemoveFilteredPolicy(sec, ptype, fieldIndex, fieldValues...)`
on a collection modelled as a list of documents: builds the partial-match
selector and issues a delete-many, which removes every matching document;
the driver reports success regardless of how many documents matched, so the
operation is total. -/
def RemoveFilteredPolicy (coll : List CasbinRule) (ptype : String) (fieldIndex : Int)
    (fieldValues : List String) : List CasbinRule :=
  coll.filter (fun c => !(matchesSelector (buildSelector ptype fieldIndex fieldValues) c))

/-- Embedding of `RemovePolicy(sec, ptype, rule)`: encodes the rule and issues
a `DeleteOne` with the full document as the filter, which deletes at most
one document whose rule-type tag and all six fields are equal; a zero-match
delete is not an error. -/
def RemovePolicy (coll : List CasbinRule) (ptype : String) (rule : List String) :
    List CasbinRule :=
  coll.erase (savePolicyLine ptype rule)

/-- Embedding of `(*CasbinRule).toStringPolicy()`: appends the rule-type tag
and then each positional field, skipping every component that is empty. -/
def toStringPolicy (c : CasbinRule) : List String :=
  (if c.pType ≠ "" then [c.pType] else []) ++
    (if c.v0 ≠ "" then [c.v0] else []) ++ (if c.v1 ≠ "" then [c.v1] else []) ++
    (if c.v2 ≠ "" then [c.v2] else []) ++ (if c.v3 ≠ "" then [c.v3] else []) ++
    (if c.v4 ≠ "" then [c.v4] else []) ++ (if c.v5 ≠ "" then [c.v5] else [])

/-- The three-phase body shared by `updateFilteredPoliciesTxn` and its
non-transactional twin `updateFilteredPolicies`: read the documents matching
the selector, delete them all, insert the new lines, and return the deleted
documents rendered through `toStringPolicy` together with the resulting
collection. -/
def updateFilteredCore (coll : List CasbinRule) (sel : Selector)
    (newLines : List CasbinRule) : List (List String) × List CasbinRule :=
  let oldLines := coll.filter (fun c => matchesSelector sel c)
  (oldLines.map toStringPolicy,
    coll.filter (fun c => !(matchesSelector sel c)) ++ newLines)

/-- Embedding of `UpdateFilteredPolicies(sec, ptype, newPolicies, fieldIndex,
fieldValues...)` on the path where the store raises no error: builds the
selector, encodes the new policies, and runs the three-phase
read/delete/insert body. -/
def UpdateFilteredPolicies (coll : List CasbinRule) (ptype : String)
    (newPolicies : List (List String)) (fieldIndex : Int) (fieldValues : List String) :
    List (List String) × List CasbinRule :=
  updateFilteredCore coll (buildSelector ptype fieldIndex fieldValues)
    (newPolicies.map (fun p => savePolicyLine ptype p))

/-- Errors of the store layer that the adapter's control flow inspects,
embedded from the Go driver: `commandError code` is `mongo.CommandError`
with its numeric code (code 20 is "Transaction numbers are only allowed on
a replica set member or mongos"), and `otherError` stands for every error
value of any other dynamic type. -/
inductive GoError where
  | commandError (code : Int)
  | otherError (msg : String)
deriving DecidableEq, Repr

/-- Embedding of the error test `mongoErr, ok := err.(mongo.CommandError);
ok && mongoErr.Code == 20` that decides whether the transactional attempt
failed because the deployment does not support transactions. -/
def isTxnUnsupportedErr : GoError → Bool
  | GoError.commandError code => code == 20
  | GoError.otherError _ => false

/-- Result of the `UpdateFilteredPolicies` dispatch between the transactional
path and the non-transactional fallback: whether the mandatory warning was
logged, whether the fallback ran, and the value returned to the caller. -/
structure UpdateDispatch where
  warned : Bool
  fellBack : Bool
  result : Except GoError (List (List String) × List CasbinRule)
deriving Repr

/-- Embedding of the dispatch in `UpdateFilteredPolicies`: run the
transactional attempt (its store-level outcome modelled by `txnErr`, `none`
meaning it committed); on success return its result; if it failed with the
recognised transactions-unsupported error, log the warning and run the same
three phases without a transaction; on any other error return that error to
the caller unchanged. -/
def UpdateFilteredPoliciesDispatch (txnErr : Option GoError) (coll : List CasbinRule)
    (ptype : String) (newPolicies : List (List String)) (fieldIndex : Int)
    (fieldValues : List String) : UpdateDispatch :=
  let core := UpdateFilteredPolicies coll ptype newPolicies fieldIndex fieldValues
  match txnErr with
  | none => ⟨false, false, Except.ok core⟩
  | some e =>
    if isTxnUnsupportedErr e then ⟨true, true, Except.ok core⟩
    else ⟨false, false, Except.error e⟩

/-- Which Go context a store operation inside `updateFilteredPoliciesTxn`
receives: the plain per-call timeout context `ctx`, or the session context
`sessionCtx` under which operations join the transaction. -/
inductive OpCtx where
  | plain
  | session
deriving DecidableEq, Repr

/-- The store operations issued by `updateFilteredPoliciesTxn`. -/
inductive StoreOp where
  | find (sel : Selector)
  | deleteMany (sel : Selector)
  | insertOne (doc : CasbinRule)
deriving DecidableEq, Repr

/-- The sequence of store operations issued by the transaction callback of
`updateFilteredPoliciesTxn`, each paired with the context it receives in the
Go source: `a.collection.Find(ctx, selector)` uses the plain context, while
`a.collection.DeleteMany(sessionCtx, selector)` and each
`a.collection.InsertOne(sessionCtx, &newLine)` use the session context. -/
def updateFilteredPoliciesTxnOps (sel : Selector) (newLines : List CasbinRule) :
    List (OpCtx × StoreOp) :=
  (OpCtx.plain, StoreOp.find sel) :: (OpCtx.session, StoreOp.deleteMany sel) ::
    newLines.map (fun l => (OpCtx.session, StoreOp.insertOne l))

/-- The in-memory policy set handed to `SavePolicy`, keeping only what the
adapter reads: under each of the "p" and "g" sections, rule-type tags with
their ordered lists of rules. -/
structure PolicySet where
  p : List (String × List (List String))
  g : List (String × List (List String))
deriving Repr

/-- Document lines produced from one section of the policy set, encoding
every rule of every rule-type with `savePolicyLine`. -/
def sectionLines (sec : List (String × List (List String))) : List CasbinRule :=
  sec.flatMap (fun pr => pr.2.map (fun rule => savePolicyLine pr.1 rule))

/-- All document lines `SavePolicy` inserts: the "p" section followed by the
"g" section. -/
def setLines (set : PolicySet) : List CasbinRule :=
  sectionLines set.p ++ sectionLines set.g

/-- The adapter state the claims depend on: the `filtered` flag and the
target collection's contents. -/
structure AdapterState where
  filtered : Bool
  coll : List CasbinRule
deriving DecidableEq, Repr

/-- Embedding of `IsFiltered()`. -/
def IsFiltered (st : AdapterState) : Bool :=
  st.filtered

/-- What one load call appends to the model: the decoded
`(section, ruleType, fields)` triple of every document the query returns,
in order (documents that decode to no tokens load nothing). -/
def loadYield (coll : List CasbinRule) : List (String × String × List String) :=
  coll.filterMap decodePolicyLine

/-- Embedding of `LoadFilteredPolicy(model, filter)`: a nil filter clears the
`filtered` flag and queries every document (the code substitutes the
match-all filter `bson.D{{}}`); a non-nil filter sets the flag and queries
only the matching documents. The filter itself is an opaque store-level
predicate. -/
def LoadFilteredPolicy (st : AdapterState) (filter : Option (CasbinRule → Bool)) :
    AdapterState × List (String × String × List String) :=
  match filter with
  | none => ({ st with filtered := false }, loadYield st.coll)
  | some f => ({ st with filtered := true }, loadYield (st.coll.filter f))

/-- Embedding of `LoadPolicy(model)`, which the source defines as
`LoadFilteredPolicy(model, nil)`. -/
def LoadPolicy (st : AdapterState) : AdapterState × List (String × String × List String) :=
  LoadFilteredPolicy st none

/-- Adapter-level errors the claims mention: the filtered-save rejection
(`errors.New("cannot save a filtered policy")`) and the driver's
`ErrEmptySlice`, returned by `InsertMany` when given no documents. -/
inductive AdapterError where
  | filteredSave
  | emptySlice
deriving DecidableEq, Repr

/-- Embedding of the driver's `Collection.InsertMany`: rejects an empty
document slice client-side, otherwise appends the documents. -/
def insertMany (coll : List CasbinRule) (docs : List CasbinRule) :
    Except AdapterError (List CasbinRule) :=
  if docs.isEmpty then Except.error AdapterError.emptySlice
  else Except.ok (coll ++ docs)

/-- Outcome of `SavePolicy`: the error returned (if any) together with the
adapter state after the call. -/
structure SaveResult where
  err : Option AdapterError
  state : AdapterState
deriving DecidableEq, Repr

/-- Embedding of `SavePolicy(model)`: rejects immediately when `filtered` is
set, leaving everything untouched; otherwise drops the collection and
bulk-inserts the encoded lines of the "p" and "g" sections into the emptied
collection with `InsertMany`. -/
def SavePolicy (st : AdapterState) (set : PolicySet) : SaveResult :=
  if st.filtered then { err := some AdapterError.filteredSave, state := st }
  else
    match insertMany [] (setLines set) with
    | Except.error e => { err := some e, state := { st with coll := [] } }
    | Except.ok c => { err := none, state := { st with coll := c } }

/-- Helper: reading position `i < 6` of a rule truncated to its first six
values agrees with reading position `i` of the untruncated rule. -/
theorem field_take (rule : List String) (i : Nat) (hi : i < 6) :
    (if i < (rule.take 6).length then (rule.take 6).getD i "" else "")
      = (if i < rule.length then rule.getD i "" else "") := by
  rw [List.length_take]
  by_cases h : i < rule.length
  · rw [if_pos (by omega), if_pos h]
    simp [List.getD_eq_getElem?_getD, List.getElem?_take, hi]
  · rw [if_neg (by omega), if_neg h]

/-- C9: for every rule-type tag and input field list, `savePolicyLine` copies
the first `min(length, 6)` values positionally into the document fields,
leaves every position at or beyond the input length empty, and silently
drops input values past position 5, so encoding a list equals encoding its
six-element prefix. -/
theorem savePolicyLine_positional_spec (pt : String) (rule : List String) :
    (savePolicyLine pt rule).pType = pt ∧
    (∀ i : Nat, i < 6 → i < rule.length →
      (savePolicyLine pt rule).fieldAt i = rule.getD i "") ∧
    (∀ i : Nat, i < 6 → rule.length ≤ i →
      (savePolicyLine pt rule).fieldAt i = "") ∧
    savePolicyLine pt rule = savePolicyLine pt (rule.take 6) := by
  refine ⟨rfl, ?_, ?_, ?_⟩
  · intro i h6 hlen
    interval_cases i <;> simp [savePolicyLine, CasbinRule.fieldAt, hlen]
  · intro i h6 hlen
    interval_cases i <;>
      simp [savePolicyLine, CasbinRule.fieldAt] <;> omega
  · simp only [savePolicyLine]
    congr 1 <;> exact (field_take rule _ (by omega)).symm

/-- Witness for C9 at a concrete seven-element rule: position 1 is copied
positionally, and the encoding equals that of the six-element prefix. -/
theorem savePolicyLine_positional_spec_witness :
    (savePolicyLine "p" ["a", "b", "c", "d", "e", "f", "g"]).fieldAt 1
        = ["a", "b", "c", "d", "e", "f", "g"].getD 1 "" ∧
    savePolicyLine "p" ["a", "b", "c", "d", "e", "f", "g"]
        = savePolicyLine "p" (["a", "b", "c", "d", "e", "f", "g"].take 6) :=
  ⟨(savePolicyLine_positional_spec "p" ["a", "b", "c", "d", "e", "f", "g"]).2.1 1
      (by decide) (by decide),
   (savePolicyLine_positional_spec "p" ["a", "b", "c", "d", "e", "f", "g"]).2.2.2⟩

/-- C5 counterexample: the round-trip claim quantifies over every all-non-empty
field list of length at most six, but the empty field list encodes to a
document with all value fields empty, which decodes to no tokens at all
(the load text stays empty and the line is skipped), not to the pair
`(tag first character, tag)` with an empty field list. -/
theorem roundtrip_fails_on_empty_rule :
    decodePolicyLine (savePolicyLine "p" []) = none ∧
    decodePolicyLine (savePolicyLine "p" [])
      ≠ some ("p".take 1, "p", ([] : List String)) := by decide

/-- C5 (amended): encode then decode is the identity on well-formed rules
with at least one field: for every tag and every field list of length
between one and six with all entries non-empty,
`decode (encode tag fields) = (first character of tag, tag, fields)`. -/
theorem codec_roundtrip (tag : String) (fields : List String)
    (h1 : 1 ≤ fields.length) (h6 : fields.length ≤ 6)
    (hne : ∀ f ∈ fields, f ≠ "") :
    decodePolicyLine (savePolicyLine tag fields) = some (tag.take 1, tag, fields) := by
  match fields with
  | [] => simp at h1
  | [a] =>
    have ha : a ≠ "" := hne a (by simp)
    simp [savePolicyLine, decodePolicyLine, loadPolicyTokens, ha]
  | [a, b] =>
    have ha : a ≠ "" := hne a (by simp)
    have hb : b ≠ "" := hne b (by simp)
    simp [savePolicyLine, decodePolicyLine, loadPolicyTokens, ha, hb]
  | [a, b, c] =>
    have ha : a ≠ "" := hne a (by simp)
    have hb : b ≠ "" := hne b (by simp)
    have hc : c ≠ "" := hne c (by simp)
    simp [savePolicyLine, decodePolicyLine, loadPolicyTokens, ha, hb, hc]
  | [a, b, c, d] =>
    have ha : a ≠ "" := hne a (by simp)
    have hb : b ≠ "" := hne b (by simp)
    have hc : c ≠ "" := hne c (by simp)
    have hd : d ≠ "" := hne d (by simp)
    simp [savePolicyLine, decodePolicyLine, loadPolicyTokens, ha, hb, hc, hd]
  | [a, b, c, d, e] =>
    have ha : a ≠ "" := hne a (by simp)
    have hb : b ≠ "" := hne b (by simp)
    have hc : c ≠ "" := hne c (by simp)
    have hd : d ≠ "" := hne d (by simp)
    have he : e ≠ "" := hne e (by simp)
    simp [savePolicyLine, decodePolicyLine, loadPolicyTokens, ha, hb, hc, hd, he]
  | [a, b, c, d, e, f] =>
    have ha : a ≠ "" := hne a (by simp)
    have hb : b ≠ "" := hne b (by simp)
    have hc : c ≠ "" := hne c (by simp)
    have hd : d ≠ "" := hne d (by simp)
    have he : e ≠ "" := hne e (by simp)
    have hf : f ≠ "" := hne f (by simp)
    simp [savePolicyLine, decodePolicyLine, loadPolicyTokens, ha, hb, hc, hd, he, hf]
  | _ :: _ :: _ :: _ :: _ :: _ :: _ :: _ => simp at h6

/-- Witness for C5 at the spec's concrete example rule. -/
theorem codec_roundtrip_witness :
    decodePolicyLine (savePolicyLine "p" ["alice", "data1", "read"])
      = some ("p".take 1, "p", ["alice", "data1", "read"]) :=
  codec_roundtrip "p" ["alice", "data1", "read"] (by decide) (by decide) (by decide)

/-- C4 counterexample: for a document whose non-empty fields are
non-contiguous, the decoder does not stop at the first empty field; it keeps
every field up to the last non-empty one, so the decoded list is not the
maximal prefix of non-empty fields. -/
theorem decode_not_first_empty_stop :
    decodeFields { pType := "p", v0 := "a", v1 := "", v2 := "c", v3 := "", v4 := "", v5 := "" }
      = ["a", "", "c"] ∧
    specDecodeFields { pType := "p", v0 := "a", v1 := "", v2 := "c", v3 := "", v4 := "", v5 := "" }
      = ["a"] ∧
    decodeFields { pType := "p", v0 := "a", v1 := "", v2 := "c", v3 := "", v4 := "", v5 := "" }
      ≠ specDecodeFields { pType := "p", v0 := "a", v1 := "", v2 := "c", v3 := "", v4 := "", v5 := "" } := by
  decide

/-- C4 (amended): decoding keeps the prefix of `fields[0..5]` ending at the
last non-empty field (exactly the list with its maximal run of trailing
empties removed); under the contiguous-fields invariant this coincides with
taking fields left-to-right and stopping at the first empty field, which
reconstructs the original field list. -/
theorem decodeFields_trailing_and_contiguous (line : CasbinRule) :
    decodeFields line = ((fieldsList line).reverse.dropWhile (fun f => f == "")).reverse ∧
    (contiguousFields line → decodeFields line = specDecodeFields line) := by
  obtain ⟨pt, a0, a1, a2, a3, a4, a5⟩ := line
  by_cases h0 : a0 = "" <;> by_cases h1 : a1 = "" <;> by_cases h2 : a2 = "" <;>
    by_cases h3 : a3 = "" <;> by_cases h4 : a4 = "" <;> by_cases h5 : a5 = "" <;>
    simp_all [decodeFields, loadPolicyTokens, fieldsList, specDecodeFields, contiguousFields]

/-- Witness for C4 at a concrete contiguous document. -/
theorem decodeFields_contiguous_witness :
    decodeFields { pType := "p", v0 := "a", v1 := "b", v2 := "", v3 := "", v4 := "", v5 := "" }
      = specDecodeFields { pType := "p", v0 := "a", v1 := "b", v2 := "", v3 := "", v4 := "", v5 := "" } :=
  (decodeFields_trailing_and_contiguous
    { pType := "p", v0 := "a", v1 := "b", v2 := "", v3 := "", v4 := "", v5 := "" }).2 (by decide)

/-- Helper: the indexed view of `buildSelector` agrees with the per-position
block `selField` on every document position. -/
theorem vAt_buildSelector (pt : String) (fi : Int) (vs : List String) (j : Nat) (hj : j < 6) :
    (buildSelector pt fi vs).vAt j = selField fi vs j := by
  interval_cases j <;> rfl

/-- C3: the partial-match selector of `RemoveFilteredPolicy` constrains the
rule-type tag to equal `ptype` exactly, constrains document position
`fieldIndex + i` to equal the `i`-th supplied value whenever that value is
non-empty, omits every position whose supplied value is empty, and the
delete-many removes exactly the matching documents while succeeding even
when zero documents match. -/
theorem removeFilteredPolicy_selector_spec (ptype : String) (fieldIndex : Int)
    (fieldValues : List String) :
    (buildSelector ptype fieldIndex fieldValues).ptype = ptype ∧
    (∀ i j : Nat, i < fieldValues.length → j < 6 → (j : Int) = fieldIndex + i →
      fieldValues.getD i "" ≠ "" →
      (buildSelector ptype fieldIndex fieldValues).vAt j = some (fieldValues.getD i "")) ∧
    (∀ i j : Nat, i < fieldValues.length → j < 6 → (j : Int) = fieldIndex + i →
      fieldValues.getD i "" = "" →
      (buildSelector ptype fieldIndex fieldValues).vAt j = none) ∧
    (∀ (coll : List CasbinRule) (c : CasbinRule),
      (c ∈ RemoveFilteredPolicy coll ptype fieldIndex fieldValues ↔
        c ∈ coll ∧ matchesSelector (buildSelector ptype fieldIndex fieldValues) c = false)) ∧
    (∀ coll : List CasbinRule,
      (∀ c ∈ coll, matchesSelector (buildSelector ptype fieldIndex fieldValues) c = false) →
      RemoveFilteredPolicy coll ptype fieldIndex fieldValues = coll) := by
  refine ⟨rfl, ?_, ?_, ?_, ?_⟩
  · intro i j hi hj hij hne
    rw [vAt_buildSelector ptype fieldIndex fieldValues j hj]
    unfold selField
    rw [if_pos (by omega)]
    have hidx : ((j : Int) - fieldIndex).toNat = i := by omega
    simp only [hidx]
    rw [if_neg hne]
  · intro i j hi hj hij he
    rw [vAt_buildSelector ptype fieldIndex fieldValues j hj]
    unfold selField
    rw [if_pos (by omega)]
    have hidx : ((j : Int) - fieldIndex).toNat = i := by omega
    simp only [hidx]
    rw [if_pos he]
  · intro coll c
    simp [RemoveFilteredPolicy, List.mem_filter]
  · intro coll hall
    unfold RemoveFilteredPolicy
    apply List.filter_eq_self.mpr
    intro c hc
    simp [hall c hc]

/-- Witness for C3 at a concrete call: the non-empty supplied value at
position 0 is constrained, the empty supplied value at position 1 is
omitted, and a delete on a collection with no matching document leaves it
unchanged. -/
theorem removeFilteredPolicy_selector_spec_witness :
    (buildSelector "p" 0 ["alice", "", "read"]).vAt 0 = some (["alice", "", "read"].getD 0 "") ∧
    (buildSelector "p" 0 ["alice", "", "read"]).vAt 1 = none ∧
    RemoveFilteredPolicy [savePolicyLine "g" ["x"]] "p" 0 ["alice", "", "read"]
      = [savePolicyLine "g" ["x"]] :=
  ⟨(removeFilteredPolicy_selector_spec "p" 0 ["alice", "", "read"]).2.1 0 0
      (by decide) (by decide) (by decide) (by decide),
   (removeFilteredPolicy_selector_spec "p" 0 ["alice", "", "read"]).2.2.1 1 1
      (by decide) (by decide) (by decide) (by decide),
   (removeFilteredPolicy_selector_spec "p" 0 ["alice", "", "read"]).2.2.2.2
      [savePolicyLine "g" ["x"]] (by decide)⟩

/-- C8: `RemovePolicy` on a rule with no structurally matching stored
document leaves the collection unchanged (and is a success, being total in
the model since a zero-match `DeleteOne` is not an error); consequently, on
any collection holding at most one copy of the encoded rule — which the
unique index over all seven fields guarantees for every reachable stored
state — a second `RemovePolicy` with the same rule changes nothing. -/
theorem removePolicy_noop_idempotent (coll : List CasbinRule) (pt : String)
    (rule : List String) (hcount : coll.count (savePolicyLine pt rule) ≤ 1) :
    (savePolicyLine pt rule ∉ coll → RemovePolicy coll pt rule = coll) ∧
    RemovePolicy (RemovePolicy coll pt rule) pt rule = RemovePolicy coll pt rule := by
  constructor
  · intro hnm
    exact List.erase_of_not_mem hnm
  · by_cases hm : savePolicyLine pt rule ∈ coll
    · have h1 : (coll.erase (savePolicyLine pt rule)).count (savePolicyLine pt rule)
          = coll.count (savePolicyLine pt rule) - 1 := List.count_erase_self _ _
      have h0 : (coll.erase (savePolicyLine pt rule)).count (savePolicyLine pt rule) = 0 := by
        omega
      have hnm : savePolicyLine pt rule ∉ coll.erase (savePolicyLine pt rule) :=
        List.count_eq_zero.mp h0
      exact List.erase_of_not_mem hnm
    · unfold RemovePolicy
      rw [List.erase_of_not_mem hm]
      exact List.erase_of_not_mem hm

/-- Witness for C8: deleting from an empty collection is a no-op, and on a
one-document collection the second delete of the same rule changes
nothing. -/
theorem removePolicy_noop_idempotent_witness :
    RemovePolicy [] "p" ["x"] = [] ∧
    RemovePolicy (RemovePolicy [savePolicyLine "p" ["x"]] "p" ["x"]) "p" ["x"]
      = RemovePolicy [savePolicyLine "p" ["x"]] "p" ["x"] :=
  ⟨(removePolicy_noop_idempotent [] "p" ["x"] (by decide)).1 (by decide),
   (removePolicy_noop_idempotent [savePolicyLine "p" ["x"]] "p" ["x"] (by decide)).2⟩

/-- C1: the `filtered` flag is exactly the non-nullness of the filter of the
most recent load; `SavePolicy` fails with the filtered-save error exactly
when the flag is set, and in that case it touches neither the flag nor the
collection; after a filtered load the flag reads true and a full save is
rejected, and after a subsequent unfiltered load the flag reads false and
the save proceeds past the filtered guard. -/
theorem filtered_flag_save_guard (st : AdapterState) (set : PolicySet)
    (f : CasbinRule → Bool) :
    (∀ filt : Option (CasbinRule → Bool),
      ((LoadFilteredPolicy st filt).1).filtered = filt.isSome) ∧
    ((SavePolicy st set).err = some AdapterError.filteredSave ↔ st.filtered = true) ∧
    (IsFiltered (LoadFilteredPolicy st (some f)).1 = true ∧
     (SavePolicy (LoadFilteredPolicy st (some f)).1 set).err = some AdapterError.filteredSave ∧
     (SavePolicy (LoadFilteredPolicy st (some f)).1 set).state
       = (LoadFilteredPolicy st (some f)).1 ∧
     IsFiltered (LoadPolicy (LoadFilteredPolicy st (some f)).1).1 = false ∧
     (SavePolicy (LoadPolicy (LoadFilteredPolicy st (some f)).1).1 set).err
       ≠ some AdapterError.filteredSave) := by
  refine ⟨?_, ?_, ?_⟩
  · intro filt
    cases filt <;> rfl
  · by_cases hf : st.filtered <;>
      by_cases he : (setLines set).isEmpty <;>
      simp [SavePolicy, insertMany, hf, he]
  · by_cases he : (setLines set).isEmpty <;>
      simp [SavePolicy, insertMany, LoadPolicy, LoadFilteredPolicy, IsFiltered, he]

/-- Witness for C1: the filtered-load / rejected-save / unfiltered-load /
accepted-save scenario at a concrete adapter state and policy set. -/
theorem filtered_flag_save_guard_witness :
    IsFiltered (LoadFilteredPolicy { filtered := false, coll := [] }
        (some (fun c => c.v0 == "alice"))).1 = true ∧
    (SavePolicy (LoadFilteredPolicy { filtered := false, coll := [] }
          (some (fun c => c.v0 == "alice"))).1
        { p := [("p", [["alice", "data1", "read"]])], g := [] }).err
      = some AdapterError.filteredSave ∧
    IsFiltered (LoadPolicy (LoadFilteredPolicy { filtered := false, coll := [] }
        (some (fun c => c.v0 == "alice"))).1).1 = false ∧
    (SavePolicy (LoadPolicy (LoadFilteredPolicy { filtered := false, coll := [] }
          (some (fun c => c.v0 == "alice"))).1).1
        { p := [("p", [["alice", "data1", "read"]])], g := [] }).err
      ≠ some AdapterError.filteredSave :=
  ⟨(filtered_flag_save_guard { filtered := false, coll := [] }
      { p := [("p", [["alice", "data1", "read"]])], g := [] }
      (fun c => c.v0 == "alice")).2.2.1,
   (filtered_flag_save_guard { filtered := false, coll := [] }
      { p := [("p", [["alice", "data1", "read"]])], g := [] }
      (fun c => c.v0 == "alice")).2.2.2.1,
   (filtered_flag_save_guard { filtered := false, coll := [] }
      { p := [("p", [["alice", "data1", "read"]])], g := [] }
      (fun c => c.v0 == "alice")).2.2.2.2.2.1,
   (filtered_flag_save_guard { filtered := false, coll := [] }
      { p := [("p", [["alice", "data1", "read"]])], g := [] }
      (fun c => c.v0 == "alice")).2.2.2.2.2.2⟩

/-- C10: saving a policy set that encodes to zero document lines, with the
`filtered` flag clear, drops the collection and then hands the empty line
list to `InsertMany`, which the driver rejects — so the call returns an
error and leaves the collection already dropped. -/
theorem savePolicy_empty_set_errors (st : AdapterState) (set : PolicySet)
    (hf : st.filtered = false) (he : setLines set = []) :
    SavePolicy st set
      = { err := some AdapterError.emptySlice, state := { st with coll := [] } } := by
  simp [SavePolicy, insertMany, hf, he]

/-- Witness for C10: an unfiltered adapter over a non-empty collection saving
a policy set with no rules under either section errors with the collection
emptied. -/
theorem savePolicy_empty_set_errors_witness :
    SavePolicy { filtered := false, coll := [savePolicyLine "p" ["x"]] } { p := [], g := [] }
      = { err := some AdapterError.emptySlice, state := { filtered := false, coll := [] } } :=
  savePolicy_empty_set_errors _ _ rfl rfl

/-- C2 counterexample: on a store holding only the encoded rule
`("p", "alice", "data1", "read")`, `UpdateFilteredPolicies` with the claim's
arguments does not return `[["alice", "data1", "read"]]` — the removed rules
are rendered through `toStringPolicy`, which includes the rule-type tag. -/
theorem updateFiltered_removed_excludes_tag_cex :
    (UpdateFilteredPolicies [savePolicyLine "p" ["alice", "data1", "read"]] "p"
        [["alice", "data1", "write"]] 0 ["alice", "data1", "read"]).1
      ≠ [["alice", "data1", "read"]] := by decide

/-- C2 (amended): the same call returns `[["p", "alice", "data1", "read"]]`
as the removed set — the deleted rules' field lists with the rule-type tag
included as the first element — and a subsequent load yields
`[["alice", "data1", "write"]]` in place of the old rule. -/
theorem updateFiltered_removed_includes_tag :
    UpdateFilteredPolicies [savePolicyLine "p" ["alice", "data1", "read"]] "p"
        [["alice", "data1", "write"]] 0 ["alice", "data1", "read"]
      = ([["p", "alice", "data1", "read"]],
         [savePolicyLine "p" ["alice", "data1", "write"]]) ∧
    loadYield (UpdateFilteredPolicies [savePolicyLine "p" ["alice", "data1", "read"]] "p"
        [["alice", "data1", "write"]] 0 ["alice", "data1", "read"]).2
      = [("p", "p", ["alice", "data1", "write"])] := by decide

/-- C6 evidence: in the transaction callback of `updateFilteredPoliciesTxn`
the read phase (`Find`) receives the plain timeout context, not the session
context, so not every phase of the read/delete/insert sequence executes
inside the store transaction — only the delete and the inserts do. -/
theorem updateFilteredTxn_read_outside_session :
    ((updateFilteredPoliciesTxnOps (buildSelector "p" 0 ["alice", "data1", "read"])
        [savePolicyLine "p" ["alice", "data1", "write"]]).map Prod.fst
      = [OpCtx.plain, OpCtx.session, OpCtx.session]) ∧
    ¬ (∀ op ∈ updateFilteredPoliciesTxnOps (buildSelector "p" 0 ["alice", "data1", "read"])
          [savePolicyLine "p" ["alice", "data1", "write"]], op.1 = OpCtx.session) := by
  constructor
  · rfl
  · intro h
    have := h (OpCtx.plain, StoreOp.find (buildSelector "p" 0 ["alice", "data1", "read"]))
      (by simp [updateFilteredPoliciesTxnOps])
    simp at this

/-- C7: the fallback to the non-transactional three-phase execution happens
exactly when the transactional attempt fails with the recognised
transactions-unsupported error (`mongo.CommandError` with code 20); the
fallback is always preceded by the logged warning and produces the same
three-phase result; every other error from the transactional attempt is
returned to the caller unchanged, with no warning and no fallback. -/
theorem updateFiltered_fallback_dispatch_spec (txnErr : Option GoError)
    (coll : List CasbinRule) (pt : String) (nps : List (List String)) (fi : Int)
    (fvs : List String) :
    (∀ e : GoError, isTxnUnsupportedErr e = true ↔ e = GoError.commandError 20) ∧
    ((UpdateFilteredPoliciesDispatch txnErr coll pt nps fi fvs).fellBack = true ↔
      txnErr = some (GoError.commandError 20)) ∧
    ((UpdateFilteredPoliciesDispatch txnErr coll pt nps fi fvs).warned
      = (UpdateFilteredPoliciesDispatch txnErr coll pt nps fi fvs).fellBack) ∧
    ((UpdateFilteredPoliciesDispatch txnErr coll pt nps fi fvs).fellBack = true →
      (UpdateFilteredPoliciesDispatch txnErr coll pt nps fi fvs).result
        = Except.ok (UpdateFilteredPolicies coll pt nps fi fvs)) ∧
    (∀ e : GoError, txnErr = some e → isTxnUnsupportedErr e = false →
      UpdateFilteredPoliciesDispatch txnErr coll pt nps fi fvs
        = ⟨false, false, Except.error e⟩) := by
  refine ⟨?_, ?_, ?_, ?_, ?_⟩
  · intro e
    cases e with
    | commandError c => simp [isTxnUnsupportedErr]
    | otherError m => simp [isTxnUnsupportedErr]
  · cases txnErr with
    | none => simp [UpdateFilteredPoliciesDispatch]
    | some e =>
      cases e with
      | commandError c =>
        by_cases hc : c = 20
        · subst hc
          simp [UpdateFilteredPoliciesDispatch, isTxnUnsupportedErr]
        · simp [UpdateFilteredPoliciesDispatch, isTxnUnsupportedErr, hc]
      | otherError m => simp [UpdateFilteredPoliciesDispatch, isTxnUnsupportedErr]
  · cases txnErr with
    | none => rfl
    | some e =>
      by_cases h : isTxnUnsupportedErr e = true <;> simp [UpdateFilteredPoliciesDispatch, h]
  · cases txnErr with
    | none => intro _; rfl
    | some e =>
      by_cases h : isTxnUnsupportedErr e = true <;>
        simp [UpdateFilteredPoliciesDispatch, h]
  · intro e he hne
    subst he
    simp [UpdateFilteredPoliciesDispatch, hne]

/-- Witness for C7: a non-code-20 error from the transactional attempt is
returned unchanged with no warning and no fallback. -/
theorem updateFiltered_fallback_dispatch_spec_witness :
    UpdateFilteredPoliciesDispatch (some (GoError.otherError "boom")) [] "p" [] 0 []
      = { warned := false, fellBack := false,
          result := Except.error (GoError.otherError "boom") } :=
  (updateFiltered_fallback_dispatch_spec (some (GoError.otherError "boom")) [] "p" [] 0
      []).2.2.2.2 (GoError.otherError "boom") rfl rfl

end MongodbAdapter
